import Mathlib

/-!
# Verification of the LunchCheck directory scraper

A shallow embedding of `src/scrape_lunchcheck.py` (row-schema
classification, page-content extraction, and the pagination / harvest
loop of `scrape_lunchcheck`), together with theorems settling the
specification's claims about it.

Modelling conventions:
* A raw table row is the ordered list of its `td` cells; each cell holds
  `some s` when a `span` child with text `s` is found and `none` when the
  span is absent or stale (the Python code maps those cases to `""`).
* Selenium waits are modelled by the environment: an element that is not
  located within the bounded wait is a `none` / missing entry, which in
  the Python code surfaces as a `TimeoutException`.
* Python `IndexError`-style failures are made explicit with `Except`:
  `cellAt` returns `Except.error` out of bounds, so that the absence of
  out-of-bounds reads is a provable statement rather than an artifact of
  total Lean functions.
* Page numbers are integers (`Int`), matching Python's unbounded `int`;
  `max_pages = -1` means unbounded.
-/

namespace LunchCheck

/-- A normalized restaurant record: the six fields built at
`restaurants_on_page.append({...})` in `extract_page_data`. -/
structure Restaurant where
  name : String
  address : String
  zip : String
  city : String
  canton : String
  phone : String
deriving Repr, DecidableEq

/-- One raw `tr` row of the grid: its `class` attribute and the cell
texts (`some s` = a span with text `s`, `none` = span absent/stale). -/
structure RawRow where
  cls : String
  cells : List (Option String)
deriving Repr, DecidableEq, Inhabited

/-- The `col_contents` list built by the per-cell loop of
`extract_page_data`: each cell's span text stripped, `""` when the span
is absent or stale. -/
def colContents (r : RawRow) : List String :=
  r.cells.map (fun c => match c with | some s => s.trim | none => "")

/-- The pager-row test `"pager" in row.get_attribute("class")`
(substring containment, not equality). -/
def isPager (r : RawRow) : Bool :=
  decide (("pager".toList) <:+: r.cls.toList)

/-- Checked cell access `col_contents[i]`: `Except.error` models a
Python `IndexError` on an out-of-bounds index. -/
def cellAt (cs : List String) (i : Nat) : Except String String :=
  match cs.get? i with
  | some s => Except.ok s
  | none => Except.error "IndexError"

/-- One recognized-count branch of `extract_page_data`'s classification:
for base offset `b`, the guard `if col_contents[b] and col_contents[b+1]`
(short-circuit: the address cell is only read when the name cell is
truthy) followed by the six-field record built from offsets
`b (+0..+5)`.  The five source branches are `checkTier` at
`b = 2, 4, 6, 8, 10` for counts `13, 15, 17, 19, 21`. -/
def checkTier (cs : List String) (b : Nat) : Except String (Option Restaurant) :=
  match cellAt cs b with
  | Except.error e => Except.error e
  | Except.ok name =>
    if name = "" then Except.ok none
    else
      match cellAt cs (b+1) with
      | Except.error e => Except.error e
      | Except.ok addr =>
        if addr = "" then Except.ok none
        else
          match cellAt cs (b+2), cellAt cs (b+3), cellAt cs (b+4), cellAt cs (b+5) with
          | Except.ok zip, Except.ok city, Except.ok canton, Except.ok phone =>
              Except.ok (some { name := name, address := addr, zip := zip,
                                city := city, canton := canton, phone := phone })
          | Except.error e, _, _, _ => Except.error e
          | _, Except.error e, _, _ => Except.error e
          | _, _, Except.error e, _ => Except.error e
          | _, _, _, Except.error e => Except.error e

/-- The row-classification body of `extract_page_data`: skip a row of
entirely empty cells (`if all(not item for item in col_contents)`),
then dispatch on `len(col_contents)` over the recognized counts
`13, 15, 17, 19, 21` with base offsets `2, 4, 6, 8, 10`; any other
count produces no record.  `Except.error` marks a (claimed-impossible)
out-of-bounds cell read. -/
def classifyRowE (col_contents : List String) : Except String (Option Restaurant) :=
  if col_contents.all (fun item => item = "") then Except.ok none
  else if col_contents.length = 13 then checkTier col_contents 2
  else if col_contents.length = 15 then checkTier col_contents 4
  else if col_contents.length = 17 then checkTier col_contents 6
  else if col_contents.length = 19 then checkTier col_contents 8
  else if col_contents.length = 21 then checkTier col_contents 10
  else Except.ok none

/-- Classification of one raw row as the per-row `try`/`except` body
sees it: a pager row is skipped before classification, and any exception
from the row's processing (`except ... continue`) drops the row. -/
def rowClassify (r : RawRow) : Option Restaurant :=
  match classifyRowE (colContents r) with
  | Except.ok o => o
  | Except.error _ => none

/-- Processing of one row inside the `for row in rows` loop of
`extract_page_data`: pager rows are skipped, otherwise the row is
classified (with per-row faults dropped). -/
def processRow (r : RawRow) : Option Restaurant :=
  if isPager r then none else rowClassify r

/-- `extract_page_data`: the rows wait
(`presence_of_all_elements_located` on the grid's `tr` elements) either
times out (`none`: the `TimeoutException` handler returns the empty
list) or yields the row list, which is processed in order, appending
each produced record. -/
def extract_page_data : Option (List RawRow) → List Restaurant
  | none => []
  | some rows => rows.filterMap processRow

/-! ## The pagination environment

`scrape_lunchcheck`'s interaction with the rendered site, abstracted to
what each wait/locate can observe.  A `PageView` is what the page shows
while the scraper is at a given page number; a `Site` gives the view at
every page number together with the outcome of the two kinds of click
the pagination logic performs. -/

/-- What the rendered page offers while the scraper is at some page:
whether the rows wait succeeds (and with which rows), which sequential
pager links (`__doPostBack` anchors labeled with a page number) become
clickable within the wait, and whether an ellipsis (`...`) pager link
becomes clickable within the wait. -/
structure PageView where
  tableRows : Option (List RawRow)
  seqLinks : List Int
  hasEllipsis : Bool

/-- Outcome of one attempt of the bounded click-retry loop
(`for attempt in range(3)`): `ok` = re-locate, click and the
staleness-then-presence confirmation all succeed; `timeout` = one of the
bounded waits raises `TimeoutException`; `staleExn` = the click raises
`StaleElementReferenceException`; `otherExn` = any other exception. -/
inductive AttemptOutcome
  | ok
  | timeout
  | staleExn
  | otherExn
deriving Repr, DecidableEq

/-- How the click-retry loop ended: `advanced` = confirmed success
(`pagination_advanced = True`, page number incremented); `broke` = a
`TimeoutException` broke out of the loop leaving
`pagination_advanced = False`; `raised` = the exception of the final
attempt was re-raised to the caller. -/
inductive AdvanceResult
  | advanced
  | broke
  | raised
deriving Repr, DecidableEq

/-- Outcome of clicking the ellipsis link and re-reading the active
page indicator (the block guarded only by `except TimeoutException`):
`read m` = the staleness / table-presence / rows-presence / span waits
all succeed and the span's stripped text parses as the integer `m`;
`timeout` = one of those bounded waits raises `TimeoutException`
(caught by the enclosing handler, which breaks pagination);
`valueError` = the span is located but `int()` on its text raises
`ValueError`, which no handler in the block catches — it propagates to
the caller; `staleExn` = the click on the located ellipsis reference,
or the span access, raises `StaleElementReferenceException`, likewise
caught nowhere in the block and propagated to the caller. -/
inductive EllipsisOutcome
  | read (m : Int)
  | timeout
  | valueError
  | staleExn
deriving Repr, DecidableEq

/-- The deterministic site the scraper runs against.  `view p` is the
page shown while the current page number is `p`.  `ellipsisRead p` is
the outcome of clicking the ellipsis link at page `p` and re-reading
the active page indicator, distinguishing the caught timeout from the
uncaught `ValueError` / `StaleElementReferenceException` raise paths
(see `EllipsisOutcome`).  `advanceOutcome p k` is the outcome of
attempt `k` of clicking the sequential link at page `p`.  `initRead`
is the initial active-page span: `some k` = located and parsed as `k`;
`none` = absent, stale or unparsable (at the initial read all three
are caught, defaulting the page to 1). -/
structure Site where
  view : Int → PageView
  ellipsisRead : Int → EllipsisOutcome
  advanceOutcome : Int → Nat → AttemptOutcome
  initRead : Option Int

/-- Replace a site's ellipsis-related data (the ellipsis link's
availability and the result of clicking it), leaving the sequential
links, rows and click outcomes untouched.  Used to state that a code
path never consults the ellipsis search. -/
def Site.setEllipsis (s : Site) (h : Int → Bool) (e : Int → EllipsisOutcome) : Site :=
  { view := fun p => { tableRows := (s.view p).tableRows,
                       seqLinks := (s.view p).seqLinks,
                       hasEllipsis := h p },
    ellipsisRead := e,
    advanceOutcome := s.advanceOutcome,
    initRead := s.initRead }

/-- The `for attempt in range(3)` click-retry loop, at attempt index
`i` with `rem + 1` attempts remaining: `ok` breaks with success,
`timeout` breaks the loop without success, `staleExn` / `otherExn`
retry unless this is the last attempt (`if attempt == 2: raise`, i.e.
`rem = 0`).  Returns the result together with the number of attempts
performed. -/
def advancingGo (attempts : Nat → AttemptOutcome) : Nat → Nat → AdvanceResult × Nat
  | i, 0 => (AdvanceResult.broke, i)
  | i, Nat.succ rem =>
    match attempts i with
    | AttemptOutcome.ok => (AdvanceResult.advanced, i+1)
    | AttemptOutcome.timeout => (AdvanceResult.broke, i+1)
    | AttemptOutcome.staleExn =>
        if rem = 0 then (AdvanceResult.raised, i+1) else advancingGo attempts (i+1) rem
    | AttemptOutcome.otherExn =>
        if rem = 0 then (AdvanceResult.raised, i+1) else advancingGo attempts (i+1) rem

/-- The whole click-retry loop (`for attempt in range(3)`). -/
def advancingLoop (attempts : Nat → AttemptOutcome) : AdvanceResult × Nat :=
  advancingGo attempts 0 3

/-- Stop reasons of the harvest loop.  `capReached` = the `max_pages`
check; `advanceFailed` = the retry loop broke on a timeout, so
`pagination_advanced` stayed false; `noEllipsis` = neither the
sequential link nor a usable ellipsis advance (the ellipsis-locate or
its post-click waits timed out); `ellipsisNoProgress` = the re-read
active page did not exceed the current page; `afterEllipsisNoLink` =
after an ellipsis advance the next sequential link was absent.
`noTable` is the stop reason claimed by the specification for a missing
data table; the code has no corresponding break, so no run produces
it. -/
inductive StopReason
  | capReached
  | advanceFailed
  | noEllipsis
  | ellipsisNoProgress
  | afterEllipsisNoLink
  | noTable
deriving Repr, DecidableEq

/-- Result of the pagination block of one `while True` iteration:
continue at a (freshly assigned) page number, break out of the loop
with the current page number as of the break, or re-raise an exception
to the caller. -/
inductive StepResult
  | continueAt (p : Int)
  | stopAt (p : Int) (reason : StopReason)
  | raisedAt (p : Int)
deriving Repr, DecidableEq

/-- The pagination block of one `while True` iteration at page `p`:
seek the clickable link labeled `p+1`; if found, run the click-retry
loop (incrementing the page on success).  Otherwise seek the ellipsis
link and click it; if all its waits succeed and the re-read active page
`m` exceeds `p`, adopt `m` and seek the link `m+1` (found: the loop
merely continues, the link is clicked on the next iteration since
`pagination_advanced` is already true; absent: break).  A timed-out
ellipsis wait breaks the loop (the block's only handler catches
`TimeoutException`), while a `ValueError` from parsing the re-read
span or a `StaleElementReferenceException` from the click/read is
caught by no handler and propagates to the caller. -/
def paginationStep (site : Site) (p : Int) : StepResult :=
  if (p+1) ∈ (site.view p).seqLinks then
    match (advancingLoop (site.advanceOutcome p)).1 with
    | AdvanceResult.advanced => StepResult.continueAt (p+1)
    | AdvanceResult.broke => StepResult.stopAt p StopReason.advanceFailed
    | AdvanceResult.raised => StepResult.raisedAt p
  else if (site.view p).hasEllipsis then
    match site.ellipsisRead p with
    | EllipsisOutcome.timeout => StepResult.stopAt p StopReason.noEllipsis
    | EllipsisOutcome.valueError => StepResult.raisedAt p
    | EllipsisOutcome.staleExn => StepResult.raisedAt p
    | EllipsisOutcome.read m =>
      if m > p then
        if (m+1) ∈ (site.view m).seqLinks then StepResult.continueAt m
        else StepResult.stopAt m StopReason.afterEllipsisNoLink
      else StepResult.stopAt p StopReason.ellipsisNoProgress
  else StepResult.stopAt p StopReason.noEllipsis

/-- Outcome of the harvest loop: a normal return carrying the
accumulated records, the list of page numbers whose extraction ran (in
order), the trace of values taken by `current_page_number` (in order),
and the stop reason; or an exception propagated to the caller (the
accumulated records are lost — the function never returns them); or
out of fuel (an artifact of the bounded model, not of the code). -/
inductive RunOutcome
  | normal (records : List Restaurant) (extracted : List Int) (trace : List Int)
      (reason : StopReason)
  | raised (extracted : List Int) (trace : List Int)
  | fuelOut (records : List Restaurant) (extracted : List Int) (trace : List Int)
deriving Repr, DecidableEq

/-- The trace of `current_page_number` values of an outcome. -/
def RunOutcome.trace : RunOutcome → List Int
  | RunOutcome.normal _ _ tr _ => tr
  | RunOutcome.raised _ tr => tr
  | RunOutcome.fuelOut _ _ tr => tr

/-- The `while True` loop of `scrape_lunchcheck`, fuelled.  Each
iteration: the `max_pages` cap check (`max_pages > 0 and
current_page_number > max_pages`), then `extract_page_data` with its
records appended to `all_restaurants`, then the pagination block.  The
trace accumulates every value assigned to `current_page_number`. -/
def scrapeLoop (site : Site) (maxPages : Int) :
    Nat → Int → List Restaurant → List Int → List Int → RunOutcome
  | 0, _, acc, ex, tr => RunOutcome.fuelOut acc ex tr
  | Nat.succ fuel, p, acc, ex, tr =>
    if maxPages > 0 ∧ p > maxPages then RunOutcome.normal acc ex tr StopReason.capReached
    else
      match paginationStep site p with
      | StepResult.continueAt q =>
          scrapeLoop site maxPages fuel q
            (acc ++ extract_page_data (site.view p).tableRows) (ex ++ [p]) (tr ++ [q])
      | StepResult.stopAt q r =>
          RunOutcome.normal (acc ++ extract_page_data (site.view p).tableRows)
            (ex ++ [p]) (if q = p then tr else tr ++ [q]) r
      | StepResult.raisedAt q =>
          RunOutcome.raised (ex ++ [p]) (if q = p then tr else tr ++ [q])

/-- `scrape_lunchcheck`'s harvest phase: discover the starting page
number from the initial pager span (defaulting to 1 when that read
fails), then run the loop with an empty accumulator. -/
def scrape_lunchcheck (site : Site) (maxPages : Int) (fuel : Nat) : RunOutcome :=
  scrapeLoop site maxPages fuel (site.initRead.getD 1) [] [] [site.initRead.getD 1]

/-! ## Concrete fixtures

Closed sites and rows used to instantiate the theorems below on
concrete, fully evaluable inputs. -/

/-- A valid 13-cell fixture row (name at offset 2, phone at offset 7). -/
def sampleRow : RawRow :=
  { cls := "",
    cells := [none, none, some "Gasthof Adler", some "Dorfstrasse 2", some "3000",
              some "Bern", some "BE", some "031 000 00 00", none, none, none, none, none] }

/-- A pager fixture row. -/
def pagerRow : RawRow := { cls := "pager", cells := [some "1"] }

/-- A purely sequential fixture site with pages `1..n`: at page `p < n`
the link labeled `p+1` is clickable, every click attempt succeeds, and
no ellipsis link ever appears. -/
def seqSite (n : Int) : Site :=
  { view := fun p => { tableRows := some [sampleRow],
                       seqLinks := if p < n then [p+1] else [],
                       hasEllipsis := false },
    ellipsisRead := fun _ => EllipsisOutcome.timeout,
    advanceOutcome := fun _ _ => AttemptOutcome.ok,
    initRead := some 1 }

/-- A fixture site whose pages never render the data table nor any
pager control, and whose initial page read fails. -/
def tablelessSite : Site :=
  { view := fun _ => { tableRows := none, seqLinks := [], hasEllipsis := false },
    ellipsisRead := fun _ => EllipsisOutcome.timeout,
    advanceOutcome := fun _ _ => AttemptOutcome.ok,
    initRead := none }

/-- A fixture site where page 1 offers the link to page 2 but every
click attempt raises a stale-element exception. -/
def staleSite : Site :=
  { view := fun p => { tableRows := some [sampleRow],
                       seqLinks := if p = 1 then [2] else [],
                       hasEllipsis := false },
    ellipsisRead := fun _ => EllipsisOutcome.timeout,
    advanceOutcome := fun _ _ => AttemptOutcome.staleExn,
    initRead := some 1 }

/-- A fixture site where page 1 offers the link to page 2 but every
click attempt's confirmation times out. -/
def timeoutSite : Site :=
  { view := fun p => { tableRows := some [sampleRow],
                       seqLinks := if p = 1 then [2] else [],
                       hasEllipsis := false },
    ellipsisRead := fun _ => EllipsisOutcome.timeout,
    advanceOutcome := fun _ _ => AttemptOutcome.timeout,
    initRead := some 1 }

/-- A fixture site where page 1 links to page 2; at page 2 the link
labeled 3 is absent but an ellipsis link reveals page 4 (the active
span reads 4 after the click); page 4 links to page 5, the last page. -/
def ellipsisSite : Site :=
  { view := fun p => { tableRows := some [sampleRow],
                       seqLinks := if p = 1 then [2] else if p = 4 then [5] else [],
                       hasEllipsis := decide (p = 2) },
    ellipsisRead := fun p => if p = 2 then EllipsisOutcome.read 4 else EllipsisOutcome.timeout,
    advanceOutcome := fun _ _ => AttemptOutcome.ok,
    initRead := some 1 }

/-- A fixture site whose page 1 has no sequential link but an ellipsis
control whose post-click re-read locates the active span yet fails to
parse its text as an integer: the uncaught `ValueError` path of the
ellipsis block. -/
def badSpanSite : Site :=
  { view := fun _ => { tableRows := some [sampleRow], seqLinks := [],
                       hasEllipsis := true },
    ellipsisRead := fun _ => EllipsisOutcome.valueError,
    advanceOutcome := fun _ _ => AttemptOutcome.ok,
    initRead := some 1 }

/-! ## Helper lemmas about the row classifier -/

lemma cellAt_of_lt (cs : List String) (i : Nat) (h : i < cs.length) :
    cellAt cs i = Except.ok (cs.getD i "") := by
  unfold cellAt
  rw [List.get?_eq_getElem?, List.getElem?_eq_getElem h, List.getD_eq_getElem cs "" h]

lemma checkTier_of_nonempty (cs : List String) (b : Nat) (hb : b + 5 < cs.length)
    (h1 : cs.getD b "" ≠ "") (h2 : cs.getD (b+1) "" ≠ "") :
    checkTier cs b = Except.ok (some
      { name := cs.getD b "", address := cs.getD (b+1) "", zip := cs.getD (b+2) "",
        city := cs.getD (b+3) "", canton := cs.getD (b+4) "", phone := cs.getD (b+5) "" }) := by
  unfold checkTier
  rw [cellAt_of_lt cs b (by omega), cellAt_of_lt cs (b+1) (by omega),
      cellAt_of_lt cs (b+2) (by omega), cellAt_of_lt cs (b+3) (by omega),
      cellAt_of_lt cs (b+4) (by omega), cellAt_of_lt cs (b+5) (by omega)]
  simp only [List.getD_eq_getElem?_getD] at h1 h2 ⊢
  simp [h1, h2]

lemma checkTier_of_empty (cs : List String) (b : Nat) (hb : b + 1 < cs.length)
    (h : cs.getD b "" = "" ∨ cs.getD (b+1) "" = "") :
    checkTier cs b = Except.ok none := by
  by_cases h1 : cs.getD b "" = ""
  · unfold checkTier
    rw [cellAt_of_lt cs b (by omega)]
    simp only [List.getD_eq_getElem?_getD] at h1
    simp [h1]
  · have h2 : cs.getD (b+1) "" = "" := h.resolve_left h1
    unfold checkTier
    rw [cellAt_of_lt cs b (by omega), cellAt_of_lt cs (b+1) (by omega)]
    simp only [List.getD_eq_getElem?_getD] at h1 h2
    simp [h1, h2]

lemma all_empty_false_of_getD (cs : List String) (b : Nat) (hb : b < cs.length)
    (h : cs.getD b "" ≠ "") : cs.all (fun item => item = "") = false := by
  apply Bool.eq_false_iff.mpr
  intro hall
  apply h
  have hmem : cs.getD b "" ∈ cs := by
    rw [List.getD_eq_getElem cs "" hb]
    exact List.getElem_mem hb
  exact of_decide_eq_true (List.all_eq_true.mp hall _ hmem)

lemma classifyRowE_eq_dispatch (cs : List String)
    (hne : cs.all (fun item => item = "") = false) :
    classifyRowE cs =
      (if cs.length = 13 then checkTier cs 2
       else if cs.length = 15 then checkTier cs 4
       else if cs.length = 17 then checkTier cs 6
       else if cs.length = 19 then checkTier cs 8
       else if cs.length = 21 then checkTier cs 10
       else Except.ok none) := by
  unfold classifyRowE
  rw [hne]
  simp

lemma classifyRowE_all_empty (cs : List String)
    (hall : cs.all (fun item => item = "") = true) :
    classifyRowE cs = Except.ok none := by
  unfold classifyRowE
  rw [hall]
  simp

lemma checkTier_ok (cs : List String) (b : Nat) (hb : b + 5 < cs.length) :
    ∃ o, checkTier cs b = Except.ok o := by
  by_cases h1 : cs.getD b "" = ""
  · exact ⟨none, checkTier_of_empty cs b (by omega) (Or.inl h1)⟩
  · by_cases h2 : cs.getD (b+1) "" = ""
    · exact ⟨none, checkTier_of_empty cs b (by omega) (Or.inr h2)⟩
    · exact ⟨_, checkTier_of_nonempty cs b hb h1 h2⟩

/-! ## Claims about the row classifier -/

/-- Claim C4: for every raw row whose cell count is in
{13, 15, 17, 19, 21} and whose name and address cells at the schema's
offsets are non-empty, classification produces a record with exactly
the six fields {name, address, zip, city, canton, phone}, taken from
offsets starting at index 2 for count 13 and advancing by a stride of 2
per tier (name at 2/4/6/8/10, the other five fields at the five
consecutive following indices). -/
theorem classify_recognized_tiers (cs : List String) :
    (cs.length = 13 → cs.getD 2 "" ≠ "" → cs.getD 3 "" ≠ "" →
      classifyRowE cs = Except.ok (some
        { name := cs.getD 2 "", address := cs.getD 3 "", zip := cs.getD 4 "",
          city := cs.getD 5 "", canton := cs.getD 6 "", phone := cs.getD 7 "" })) ∧
    (cs.length = 15 → cs.getD 4 "" ≠ "" → cs.getD 5 "" ≠ "" →
      classifyRowE cs = Except.ok (some
        { name := cs.getD 4 "", address := cs.getD 5 "", zip := cs.getD 6 "",
          city := cs.getD 7 "", canton := cs.getD 8 "", phone := cs.getD 9 "" })) ∧
    (cs.length = 17 → cs.getD 6 "" ≠ "" → cs.getD 7 "" ≠ "" →
      classifyRowE cs = Except.ok (some
        { name := cs.getD 6 "", address := cs.getD 7 "", zip := cs.getD 8 "",
          city := cs.getD 9 "", canton := cs.getD 10 "", phone := cs.getD 11 "" })) ∧
    (cs.length = 19 → cs.getD 8 "" ≠ "" → cs.getD 9 "" ≠ "" →
      classifyRowE cs = Except.ok (some
        { name := cs.getD 8 "", address := cs.getD 9 "", zip := cs.getD 10 "",
          city := cs.getD 11 "", canton := cs.getD 12 "", phone := cs.getD 13 "" })) ∧
    (cs.length = 21 → cs.getD 10 "" ≠ "" → cs.getD 11 "" ≠ "" →
      classifyRowE cs = Except.ok (some
        { name := cs.getD 10 "", address := cs.getD 11 "", zip := cs.getD 12 "",
          city := cs.getD 13 "", canton := cs.getD 14 "", phone := cs.getD 15 "" })) := by
  refine ⟨fun hlen h1 h2 => ?_, fun hlen h1 h2 => ?_, fun hlen h1 h2 => ?_,
          fun hlen h1 h2 => ?_, fun hlen h1 h2 => ?_⟩
  · rw [classifyRowE_eq_dispatch cs (all_empty_false_of_getD cs 2 (by omega) h1),
        if_pos hlen]
    exact checkTier_of_nonempty cs 2 (by omega) h1 h2
  · rw [classifyRowE_eq_dispatch cs (all_empty_false_of_getD cs 4 (by omega) h1),
        if_neg (by omega), if_pos hlen]
    exact checkTier_of_nonempty cs 4 (by omega) h1 h2
  · rw [classifyRowE_eq_dispatch cs (all_empty_false_of_getD cs 6 (by omega) h1),
        if_neg (by omega), if_neg (by omega), if_pos hlen]
    exact checkTier_of_nonempty cs 6 (by omega) h1 h2
  · rw [classifyRowE_eq_dispatch cs (all_empty_false_of_getD cs 8 (by omega) h1),
        if_neg (by omega), if_neg (by omega), if_neg (by omega), if_pos hlen]
    exact checkTier_of_nonempty cs 8 (by omega) h1 h2
  · rw [classifyRowE_eq_dispatch cs (all_empty_false_of_getD cs 10 (by omega) h1),
        if_neg (by omega), if_neg (by omega), if_neg (by omega), if_neg (by omega),
        if_pos hlen]
    exact checkTier_of_nonempty cs 10 (by omega) h1 h2

/-- Claim C4 witness: a concrete 13-cell row with non-empty name and
address cells is classified into the six-field record from offsets
2..7. -/
theorem classify_recognized_tiers_witness :
    (["", "", "A", "B", "C", "D", "E", "F", "", "", "", "", ""] : List String).length = 13 ∧
    classifyRowE ["", "", "A", "B", "C", "D", "E", "F", "", "", "", "", ""] =
      Except.ok (some { name := "A", address := "B", zip := "C", city := "D",
                        canton := "E", phone := "F" }) :=
  ⟨by decide,
   (classify_recognized_tiers ["", "", "A", "B", "C", "D", "E", "F", "", "", "", "", ""]).1
     (by decide) (by decide) (by decide)⟩

/-- Claim C6: a raw row whose cell count is outside {13, 15, 17, 19, 21},
or whose required name or address cell is empty at a recognized count,
yields no record; such a row is excluded from the page output with the
rest of the extraction unaffected (no exception escapes a single row:
classification yields `Except.ok none`, not an error, and the dropped
row leaves the other rows' output unchanged). -/
theorem classify_rejects_malformed (cs : List String) (rows₁ rows₂ : List RawRow)
    (r : RawRow) :
    (¬(cs.length = 13 ∨ cs.length = 15 ∨ cs.length = 17 ∨ cs.length = 19 ∨
        cs.length = 21) → classifyRowE cs = Except.ok none) ∧
    (cs.length = 13 → (cs.getD 2 "" = "" ∨ cs.getD 3 "" = "") →
      classifyRowE cs = Except.ok none) ∧
    (cs.length = 15 → (cs.getD 4 "" = "" ∨ cs.getD 5 "" = "") →
      classifyRowE cs = Except.ok none) ∧
    (cs.length = 17 → (cs.getD 6 "" = "" ∨ cs.getD 7 "" = "") →
      classifyRowE cs = Except.ok none) ∧
    (cs.length = 19 → (cs.getD 8 "" = "" ∨ cs.getD 9 "" = "") →
      classifyRowE cs = Except.ok none) ∧
    (cs.length = 21 → (cs.getD 10 "" = "" ∨ cs.getD 11 "" = "") →
      classifyRowE cs = Except.ok none) ∧
    (processRow r = none →
      extract_page_data (some (rows₁ ++ r :: rows₂)) =
        extract_page_data (some (rows₁ ++ rows₂))) := by
  refine ⟨fun hlen => ?_, fun hlen hreq => ?_, fun hlen hreq => ?_, fun hlen hreq => ?_,
          fun hlen hreq => ?_, fun hlen hreq => ?_, fun hr => ?_⟩
  · cases hall : cs.all (fun item => item = "") with
    | true => exact classifyRowE_all_empty cs hall
    | false =>
      rw [classifyRowE_eq_dispatch cs hall, if_neg (by tauto), if_neg (by tauto),
          if_neg (by tauto), if_neg (by tauto), if_neg (by tauto)]
  · cases hall : cs.all (fun item => item = "") with
    | true => exact classifyRowE_all_empty cs hall
    | false =>
      rw [classifyRowE_eq_dispatch cs hall, if_pos hlen]
      exact checkTier_of_empty cs 2 (by omega) hreq
  · cases hall : cs.all (fun item => item = "") with
    | true => exact classifyRowE_all_empty cs hall
    | false =>
      rw [classifyRowE_eq_dispatch cs hall, if_neg (by omega), if_pos hlen]
      exact checkTier_of_empty cs 4 (by omega) hreq
  · cases hall : cs.all (fun item => item = "") with
    | true => exact classifyRowE_all_empty cs hall
    | false =>
      rw [classifyRowE_eq_dispatch cs hall, if_neg (by omega), if_neg (by omega),
          if_pos hlen]
      exact checkTier_of_empty cs 6 (by omega) hreq
  · cases hall : cs.all (fun item => item = "") with
    | true => exact classifyRowE_all_empty cs hall
    | false =>
      rw [classifyRowE_eq_dispatch cs hall, if_neg (by omega), if_neg (by omega),
          if_neg (by omega), if_pos hlen]
      exact checkTier_of_empty cs 8 (by omega) hreq
  · cases hall : cs.all (fun item => item = "") with
    | true => exact classifyRowE_all_empty cs hall
    | false =>
      rw [classifyRowE_eq_dispatch cs hall, if_neg (by omega), if_neg (by omega),
          if_neg (by omega), if_neg (by omega), if_pos hlen]
      exact checkTier_of_empty cs 10 (by omega) hreq
  · simp [extract_page_data, List.filterMap_append, List.filterMap_cons, hr]

/-- Claim C6 witness: a 5-cell row (unrecognized count) is classified to
no record, a 13-cell row with an empty address cell is classified to no
record, and dropping a pager row from a concrete page leaves the other
rows' records unchanged. -/
theorem classify_rejects_malformed_witness :
    classifyRowE ["a", "b", "c", "d", "e"] = Except.ok none ∧
    classifyRowE ["", "", "A", "", "", "", "", "", "", "", "", "", ""] =
      Except.ok none ∧
    extract_page_data (some ([] ++ { cls := "pager", cells := [] } ::
        [{ cls := "", cells := [] }])) =
      extract_page_data (some ([] ++ [{ cls := "", cells := [] }])) :=
  ⟨(classify_rejects_malformed ["a", "b", "c", "d", "e"] [] [] default).1 (by decide),
   (classify_rejects_malformed ["", "", "A", "", "", "", "", "", "", "", "", "", ""]
      [] [] default).2.1 (by decide) (by decide),
   (classify_rejects_malformed [] [] [{ cls := "", cells := [] }]
      { cls := "pager", cells := [] }).2.2.2.2.2.2 (by decide)⟩

/-- Claim C10: classification never reads a cell offset out of bounds:
for every raw cell list, `classifyRowE` returns `Except.ok` — an
all-empty row is skipped before any indexing, each recognized-count
branch indexes only positions strictly below the count it matched
(maximum offset count − 6), and unrecognized counts reach the fallback
without any access. -/
theorem classify_no_index_error (cs : List String) :
    ∃ o, classifyRowE cs = Except.ok o := by
  cases hall : cs.all (fun item => item = "") with
  | true => exact ⟨none, classifyRowE_all_empty cs hall⟩
  | false =>
    rw [classifyRowE_eq_dispatch cs hall]
    split_ifs with h13 h15 h17 h19 h21
    · exact checkTier_ok cs 2 (by omega)
    · exact checkTier_ok cs 4 (by omega)
    · exact checkTier_ok cs 6 (by omega)
    · exact checkTier_ok cs 8 (by omega)
    · exact checkTier_ok cs 10 (by omega)
    · exact ⟨none, rfl⟩

/-! ## Helper lemmas about the pagination step -/

lemma paginationStep_stop_cases (site : Site) (p q : Int) (r : StopReason)
    (h : paginationStep site p = StepResult.stopAt q r) :
    (r = StopReason.advanceFailed ∧ q = p) ∨ (r = StopReason.noEllipsis ∧ q = p) ∨
    (r = StopReason.afterEllipsisNoLink ∧ p < q) ∨
    (r = StopReason.ellipsisNoProgress ∧ q = p) := by
  unfold paginationStep at h
  split at h
  · split at h <;> simp_all
  · split at h
    · split at h
      · simp_all
      · simp_all
      · simp_all
      · split at h
        · split at h <;> simp_all
        · simp_all
    · simp_all

lemma paginationStep_continue_lt (site : Site) (p q : Int)
    (h : paginationStep site p = StepResult.continueAt q) : p < q := by
  unfold paginationStep at h
  split at h
  · split at h <;> simp_all
    omega
  · split at h
    · split at h
      · simp_all
      · simp_all
      · simp_all
      · split at h
        · split at h <;> simp_all
        · simp_all
    · simp_all

lemma paginationStep_raised_eq (site : Site) (p q : Int)
    (h : paginationStep site p = StepResult.raisedAt q) : q = p := by
  unfold paginationStep at h
  split at h
  · split at h <;> simp_all
  · split at h
    · split at h
      · simp_all
      · simp_all
      · simp_all
      · split at h
        · split at h <;> simp_all
        · simp_all
    · simp_all

/-! ## Claims about the pagination navigator -/

/-- Claim C1 counterexample: the claim states that when the re-read of
the active page indicator after the ellipsis click fails, pagination
terminates with the structured EXHAUSTED stop.  On a concrete site
where the link `p+1` is absent, an ellipsis control exists, and the
re-read's `int()` parse fails (the uncaught `ValueError` of the
ellipsis block, whose only handler catches `TimeoutException`), the
step instead re-raises and the whole run ends as a propagated
exception, not as a structured stop with its records. -/
theorem ellipsis_reread_failure_counterexample :
    (1+1) ∉ (badSpanSite.view 1).seqLinks ∧
    (badSpanSite.view 1).hasEllipsis = true ∧
    paginationStep badSpanSite 1 = StepResult.raisedAt 1 ∧
    scrape_lunchcheck badSpanSite (-1) 3 = RunOutcome.raised [1] [1] := by
  decide

/-- Claim C1 as amended: advancing from page `p` when the sequential
link `p+1` is absent but an ellipsis control exists: the navigator
clicks the ellipsis and waits for staleness of the old table then
presence of table and rows, then re-reads the active page indicator.
If the freshly read number `m` is strictly greater than `p` it is
adopted as the new current page and the sequential link `m+1` is
sought (re-based off `m`, not off `p+1`): found, the loop continues at
page `m`; absent, the run stops.  If the read number does not exceed
`p`, or any bounded wait of the click/re-read times out, pagination
terminates (EXHAUSTED) rather than retrying; but a `ValueError` from
parsing the re-read indicator, or a `StaleElementReferenceException`
from the click or read, is caught by no handler and propagates to the
caller instead of a structured stop. -/
theorem ellipsis_rebases_search (site : Site) (p : Int)
    (hseq : (p+1) ∉ (site.view p).seqLinks)
    (hell : (site.view p).hasEllipsis = true) :
    (site.ellipsisRead p = EllipsisOutcome.timeout →
      paginationStep site p = StepResult.stopAt p StopReason.noEllipsis) ∧
    (∀ m, site.ellipsisRead p = EllipsisOutcome.read m → p < m →
      ((m+1) ∈ (site.view m).seqLinks →
        paginationStep site p = StepResult.continueAt m) ∧
      ((m+1) ∉ (site.view m).seqLinks →
        paginationStep site p = StepResult.stopAt m StopReason.afterEllipsisNoLink)) ∧
    (∀ m, site.ellipsisRead p = EllipsisOutcome.read m → m ≤ p →
      paginationStep site p = StepResult.stopAt p StopReason.ellipsisNoProgress) ∧
    (site.ellipsisRead p = EllipsisOutcome.valueError →
      paginationStep site p = StepResult.raisedAt p) ∧
    (site.ellipsisRead p = EllipsisOutcome.staleExn →
      paginationStep site p = StepResult.raisedAt p) := by
  refine ⟨fun hn => ?_, fun m hm hlt => ⟨fun hin => ?_, fun hout => ?_⟩,
          fun m hm hle => ?_, fun hv => ?_, fun hs => ?_⟩ <;>
    unfold paginationStep <;> rw [if_neg hseq, if_pos hell]
  · rw [hn]
  · rw [hm]
    simp only [if_pos hlt, if_pos hin]
  · rw [hm]
    simp only [if_pos hlt, if_neg hout]
  · rw [hm]
    simp only [if_neg (by omega : ¬m > p)]
  · rw [hv]
  · rw [hs]

/-- Claim C1 (amended) witness: on the ellipsis fixture site, at page 2
the link 3 is absent, the ellipsis read yields 4, the link 5 exists at
page 4, and the navigator continues at page 4 (seeking 5 next); on the
bad-span fixture site the unparsable re-read propagates as a raise. -/
theorem ellipsis_rebases_search_witness :
    (2+1) ∉ (ellipsisSite.view 2).seqLinks ∧
    paginationStep ellipsisSite 2 = StepResult.continueAt 4 ∧
    paginationStep badSpanSite 1 = StepResult.raisedAt 1 :=
  ⟨by decide,
   ((ellipsis_rebases_search ellipsisSite 2 (by decide) (by decide)).2.1 4
      (by decide) (by decide)).1 (by decide),
   (ellipsis_rebases_search badSpanSite 1 (by decide) (by decide)).2.2.2.1
      (by decide)⟩

/-- Claim C3: when a clickable sequential link labeled `p+1` exists and
the click-retry loop confirms success, the navigator continues at page
`p+1` (current page incremented by exactly one), and the ellipsis
search is never invoked: the step's result is unchanged under an
arbitrary replacement of the site's ellipsis data. -/
theorem sequential_advance_increments (site : Site) (h : Int → Bool)
    (e : Int → EllipsisOutcome) (p : Int)
    (hseq : (p+1) ∈ (site.view p).seqLinks)
    (hadv : (advancingLoop (site.advanceOutcome p)).1 = AdvanceResult.advanced) :
    paginationStep site p = StepResult.continueAt (p+1) ∧
    paginationStep (site.setEllipsis h e) p = StepResult.continueAt (p+1) := by
  constructor
  · unfold paginationStep
    rw [if_pos hseq, hadv]
  · unfold paginationStep
    rw [if_pos (by simpa [Site.setEllipsis] using hseq)]
    show (match (advancingLoop (site.advanceOutcome p)).1 with
      | AdvanceResult.advanced => StepResult.continueAt (p+1)
      | AdvanceResult.broke => StepResult.stopAt p StopReason.advanceFailed
      | AdvanceResult.raised => StepResult.raisedAt p) = StepResult.continueAt (p+1)
    rw [hadv]

/-- Claim C3 witness: on the sequential fixture site with 5 pages, at
page 1 the link 2 exists and the navigator continues at page 2, also
after replacing the ellipsis data by an always-available ellipsis. -/
theorem sequential_advance_increments_witness :
    paginationStep (seqSite 5) 1 = StepResult.continueAt 2 ∧
    paginationStep ((seqSite 5).setEllipsis (fun _ => true) (fun _ => EllipsisOutcome.read 9)) 1 =
      StepResult.continueAt 2 :=
  sequential_advance_increments (seqSite 5) (fun _ => true) (fun _ => EllipsisOutcome.read 9) 1
    (by decide) (by decide)

/-- Claim C2 counterexample: the claim predicts that a failed
staleness-then-presence confirmation is retried up to 3 times and that
a navigation-advance fault is never raised as an exception.  In fact a
confirmation timeout breaks the retry loop after a single attempt, and
three stale-element click failures re-raise the exception, which at
run level surfaces as a raised outcome (not a structured stop). -/
theorem advance_retry_counterexample :
    advancingLoop (fun _ => AttemptOutcome.timeout) = (AdvanceResult.broke, 1) ∧
    advancingLoop (fun _ => AttemptOutcome.staleExn) = (AdvanceResult.raised, 3) ∧
    scrape_lunchcheck staleSite (-1) 3 = RunOutcome.raised [1] [1] := by
  decide

/-- Claim C2 as amended: a timeout of the re-locate / click /
staleness-then-presence confirmation breaks pagination immediately
(one attempt, no retry), and the run then ends normally with the
already-accumulated records preserved and returned (stop reason
`advanceFailed`); only stale-element or other click exceptions are
retried, re-locating the control fresh each attempt, and after 3 such
failed attempts the exception is re-raised to the caller. -/
theorem advance_retry_semantics (site : Site) (mp : Int) (fuel : Nat) (p : Int)
    (acc : List Restaurant) (ex tr : List Int) (a : Nat → AttemptOutcome) :
    (a 0 = AttemptOutcome.timeout → advancingLoop a = (AdvanceResult.broke, 1)) ∧
    ((∀ i, i < 3 → a i = AttemptOutcome.staleExn ∨ a i = AttemptOutcome.otherExn) →
      advancingLoop a = (AdvanceResult.raised, 3)) ∧
    (¬(mp > 0 ∧ p > mp) → (p+1) ∈ (site.view p).seqLinks →
      (advancingLoop (site.advanceOutcome p)).1 = AdvanceResult.broke →
      scrapeLoop site mp (fuel+1) p acc ex tr =
        RunOutcome.normal (acc ++ extract_page_data (site.view p).tableRows)
          (ex ++ [p]) tr StopReason.advanceFailed) := by
  refine ⟨fun h0 => ?_, fun hexn => ?_, fun hcap hseq hbroke => ?_⟩
  · simp [advancingLoop, advancingGo, h0]
  · rcases hexn 0 (by omega) with h0 | h0 <;> rcases hexn 1 (by omega) with h1 | h1 <;>
      rcases hexn 2 (by omega) with h2 | h2 <;>
      simp [advancingLoop, advancingGo, h0, h1, h2]
  · have hstep : paginationStep site p = StepResult.stopAt p StopReason.advanceFailed := by
      unfold paginationStep
      rw [if_pos hseq, hbroke]
    rw [scrapeLoop, if_neg hcap, hstep]
    simp

/-- Claim C2 (amended) witness: an always-timeout attempt oracle breaks
after one attempt, and on the timeout fixture site the run from page 1
ends normally with the page-1 records preserved and stop reason
`advanceFailed`. -/
theorem advance_retry_semantics_witness :
    advancingLoop (fun _ => AttemptOutcome.timeout) = (AdvanceResult.broke, 1) ∧
    scrapeLoop timeoutSite (-1) 1 1 [] [] [1] =
      RunOutcome.normal ([] ++ extract_page_data (timeoutSite.view 1).tableRows)
        ([] ++ [1]) [1] StopReason.advanceFailed :=
  ⟨(advance_retry_semantics timeoutSite (-1) 0 1 [] [] [1]
      (fun _ => AttemptOutcome.timeout)).1 rfl,
   (advance_retry_semantics timeoutSite (-1) 0 1 [] [] [1]
      (fun _ => AttemptOutcome.timeout)).2.2 (by decide) (by decide) (by decide)⟩

/-! ## Claims about the harvest driver -/

/-- Claim C5 counterexample: on a site whose pages never render the
data table, extraction returns the empty record list with no separate
table-found signal, and the driver does not stop with a `noTable`
reason: it proceeds to pagination, finds no pager controls, and stops
with the no-ellipsis exhaustion reason. -/
theorem no_table_counterexample :
    extract_page_data (tablelessSite.view 1).tableRows = [] ∧
    scrape_lunchcheck tablelessSite (-1) 3 =
      RunOutcome.normal [] [1] [1] StopReason.noEllipsis ∧
    StopReason.noEllipsis ≠ StopReason.noTable := by
  decide

/-- Claim C5 as amended: when the data table cannot be located within
the bounded wait, page extraction returns the empty record sequence
(there is no separate table-found signal), and the driver performs no
table-presence check: no normally terminating run ever stops with the
specification's `noTable` reason — the loop instead proceeds to the
pagination logic and stops through it (accumulated records are carried
in the returned outcome). -/
theorem no_table_reason_never_produced (site : Site) (mp : Int) (fuel : Nat)
    (p : Int) (acc : List Restaurant) (ex tr : List Int)
    (recs : List Restaurant) (ex2 tr2 : List Int) (rsn : StopReason)
    (hrun : scrapeLoop site mp fuel p acc ex tr =
      RunOutcome.normal recs ex2 tr2 rsn) :
    extract_page_data none = [] ∧ rsn ≠ StopReason.noTable := by
  refine ⟨rfl, ?_⟩
  induction fuel generalizing p acc ex tr with
  | zero => simp [scrapeLoop] at hrun
  | succ f ih =>
    rw [scrapeLoop] at hrun
    split at hrun
    · simp only [RunOutcome.normal.injEq] at hrun
      rw [← hrun.2.2.2]
      decide
    · split at hrun
      · exact ih _ _ _ _ hrun
      · rename_i q r hstep
        simp only [RunOutcome.normal.injEq] at hrun
        rw [← hrun.2.2.2]
        rcases paginationStep_stop_cases site p q r hstep with
          ⟨h, _⟩ | ⟨h, _⟩ | ⟨h, _⟩ | ⟨h, _⟩ <;> rw [h] <;> decide
      · simp at hrun

/-- Claim C5 (amended) witness: on the tableless fixture site the run
terminates normally with reason `noEllipsis`, which is not `noTable`,
and extraction of a missing table is empty. -/
theorem no_table_reason_never_produced_witness :
    extract_page_data none = [] ∧ StopReason.noEllipsis ≠ StopReason.noTable :=
  no_table_reason_never_produced tablelessSite (-1) 3 1 [] [] [1] []
    [1] [1] StopReason.noEllipsis (by decide)

lemma scrapeLoop_neg_cap (site : Site) (fuel : Nat) (p : Int)
    (acc : List Restaurant) (ex tr : List Int) (recs : List Restaurant)
    (ex2 tr2 : List Int) (rsn : StopReason)
    (hrun : scrapeLoop site (-1) fuel p acc ex tr =
      RunOutcome.normal recs ex2 tr2 rsn) :
    rsn ≠ StopReason.capReached := by
  induction fuel generalizing p acc ex tr with
  | zero => simp [scrapeLoop] at hrun
  | succ f ih =>
    rw [scrapeLoop] at hrun
    split at hrun
    · omega
    · split at hrun
      · exact ih _ _ _ _ hrun
      · rename_i q r hstep
        simp only [RunOutcome.normal.injEq] at hrun
        rw [← hrun.2.2.2]
        rcases paginationStep_stop_cases site p q r hstep with
          ⟨h, _⟩ | ⟨h, _⟩ | ⟨h, _⟩ | ⟨h, _⟩ <;> rw [h] <;> decide
      · simp at hrun

lemma seqSite_cap_run (m n : Int) (hm : 0 < m) (hn : m < n) (fuel : Nat) :
    ∀ p acc ex tr, 1 ≤ p → p ≤ m + 1 → (m + 2 - p).toNat ≤ fuel →
      ∃ recs exN trN,
        scrapeLoop (seqSite n) m fuel p acc ex tr =
          RunOutcome.normal recs (ex ++ exN) trN StopReason.capReached ∧
        exN.length = (m + 1 - p).toNat ∧ ∀ q ∈ exN, q ≤ m := by
  induction fuel with
  | zero =>
    intro p acc ex tr h1 h2 h3
    omega
  | succ f ih =>
    intro p acc ex tr h1 h2 h3
    by_cases hp : p > m
    · refine ⟨acc, [], tr, ?_, by simp; omega, by simp⟩
      rw [scrapeLoop, if_pos ⟨hm, hp⟩]
      simp
    · have hstep : paginationStep (seqSite n) p = StepResult.continueAt (p+1) := by
        unfold paginationStep
        rw [if_pos (by simp [seqSite, if_pos (show p < n by omega)])]
        rfl
      obtain ⟨recs, exN, trN, heq, hlen, hmem⟩ :=
        ih (p+1) (acc ++ extract_page_data ((seqSite n).view p).tableRows)
          (ex ++ [p]) (tr ++ [p+1]) (by omega) (by omega) (by omega)
      refine ⟨recs, p :: exN, trN, ?_, ?_, ?_⟩
      · rw [scrapeLoop, if_neg (by omega), hstep]
        exact heq.trans (by rw [List.append_assoc]; rfl)
      · simp only [List.length_cons, hlen]
        omega
      · intro q hq
        rcases List.mem_cons.mp hq with hq | hq
        · omega
        · exact hmem q hq

/-- Claim C7: with a positive page cap `m` against a sequential source
with more than `m` pages, the driver extracts exactly `m` pages and
stops with reason `capReached` without ever extracting page `m+1`;
with `max_pages = -1` the cap check never stops the loop: no normally
terminating run has reason `capReached`. -/
theorem page_cap_behavior (m n : Int) (hm : 0 < m) (hn : m < n) (fuel : Nat)
    (hfuel : (m + 1).toNat ≤ fuel) :
    (∃ recs ex tr, scrape_lunchcheck (seqSite n) m fuel =
        RunOutcome.normal recs ex tr StopReason.capReached ∧
        ex.length = m.toNat ∧ (m + 1) ∉ ex) ∧
    (∀ site fuel2 p acc ex tr recs ex2 tr2 rsn,
      scrapeLoop site (-1) fuel2 p acc ex tr =
        RunOutcome.normal recs ex2 tr2 rsn →
      rsn ≠ StopReason.capReached) := by
  constructor
  · obtain ⟨recs, exN, trN, heq, hlen, hmem⟩ :=
      seqSite_cap_run m n hm hn fuel 1 [] [] [1] (by omega) (by omega) (by omega)
    refine ⟨recs, [] ++ exN, trN, ?_, ?_, ?_⟩
    · rw [scrape_lunchcheck]
      exact heq
    · simp only [List.nil_append, hlen]
      omega
    · simp only [List.nil_append]
      intro hmem2
      have := hmem _ hmem2
      omega
  · intro site fuel2 p acc ex tr recs ex2 tr2 rsn hrun
    exact scrapeLoop_neg_cap site fuel2 p acc ex tr recs ex2 tr2 rsn hrun

/-- Claim C7 witness: with cap 2 against the 5-page sequential fixture
site, the run stops with `capReached` after extracting exactly 2 pages,
page 3 never among them. -/
theorem page_cap_behavior_witness :
    ∃ recs ex tr, scrape_lunchcheck (seqSite 5) 2 10 =
      RunOutcome.normal recs ex tr StopReason.capReached ∧
      ex.length = (2 : Int).toNat ∧ ((2 : Int) + 1) ∉ ex :=
  (page_cap_behavior 2 5 (by omega) (by omega) 10 (by decide)).1

lemma filterMap_processRow (rows : List RawRow) :
    rows.filterMap processRow =
      (rows.filter (fun r => !(isPager r))).filterMap rowClassify := by
  induction rows with
  | nil => rfl
  | cons r rs ih =>
    by_cases hp : isPager r = true
    · simp [List.filterMap_cons, List.filter_cons, hp, processRow, ih]
    · simp [List.filterMap_cons, List.filter_cons, hp, processRow, ih]

lemma scrapeLoop_records_flatten (site : Site) (mp : Int) (fuel : Nat)
    (p : Int) (acc : List Restaurant) (ex tr : List Int)
    (recs : List Restaurant) (ex2 tr2 : List Int) (rsn : StopReason)
    (hacc : acc = (ex.map (fun q => extract_page_data (site.view q).tableRows)).flatten)
    (hrun : scrapeLoop site mp fuel p acc ex tr =
      RunOutcome.normal recs ex2 tr2 rsn) :
    recs = (ex2.map (fun q => extract_page_data (site.view q).tableRows)).flatten := by
  induction fuel generalizing p acc ex tr with
  | zero => simp [scrapeLoop] at hrun
  | succ f ih =>
    rw [scrapeLoop] at hrun
    split at hrun
    · simp only [RunOutcome.normal.injEq] at hrun
      rw [← hrun.1, ← hrun.2.1, hacc]
    · split at hrun
      · exact ih _ _ _ _ (by simp [hacc]) hrun
      · simp only [RunOutcome.normal.injEq] at hrun
        rw [← hrun.1, ← hrun.2.1, hacc]
        simp
      · simp at hrun

/-- Claim C8: within a page, the output records appear in exactly the
visual top-to-bottom row order with pager rows excluded (extraction is
the in-order filter of non-pager rows followed by in-order
classification); across pages, the accumulator of a normally
terminating run is the in-order concatenation of the per-page record
lists of the extracted pages, so every record of an earlier page
precedes every record of a later page. -/
theorem records_page_row_order (rows : List RawRow) (site : Site) (mp : Int)
    (fuel : Nat) (recs : List Restaurant) (ex tr : List Int) (rsn : StopReason)
    (hrun : scrape_lunchcheck site mp fuel = RunOutcome.normal recs ex tr rsn) :
    extract_page_data (some rows) =
      (rows.filter (fun r => !(isPager r))).filterMap rowClassify ∧
    recs = (ex.map (fun q => extract_page_data (site.view q).tableRows)).flatten := by
  constructor
  · exact filterMap_processRow rows
  · rw [scrape_lunchcheck] at hrun
    exact scrapeLoop_records_flatten site mp fuel _ [] [] _ recs ex tr rsn (by simp) hrun

/-- Claim C8 witness: on a concrete page [pager row, valid data row]
extraction equals the pager-filtered in-order classification, and the
(empty) record list of a run over the tableless fixture site equals the
concatenation of its extracted pages' record lists. -/
theorem records_page_row_order_witness :
    extract_page_data (some [pagerRow, sampleRow]) =
      (([pagerRow, sampleRow]).filter (fun r => !(isPager r))).filterMap rowClassify ∧
    ([] : List Restaurant) =
      (([1] : List Int).map
        (fun q => extract_page_data (tablelessSite.view q).tableRows)).flatten :=
  records_page_row_order [pagerRow, sampleRow] tablelessSite (-1) 3 [] [1] [1]
    StopReason.noEllipsis (by decide)

lemma scrapeLoop_trace_invariant (site : Site) (mp : Int) (fuel : Nat)
    (p : Int) (acc : List Restaurant) (ex tr : List Int)
    (hlast : tr.getLast? = some p) (hchain : tr.Chain' (· < ·))
    (hpos : ∀ x ∈ tr, 1 ≤ x) (hp : 1 ≤ p) :
    (scrapeLoop site mp fuel p acc ex tr).trace.Chain' (· < ·) ∧
    (∀ x ∈ (scrapeLoop site mp fuel p acc ex tr).trace, 1 ≤ x) ∧
    (scrapeLoop site mp fuel p acc ex tr).trace.head? = tr.head? := by
  induction fuel generalizing p acc ex tr with
  | zero => exact ⟨hchain, hpos, rfl⟩
  | succ f ih =>
    rw [scrapeLoop]
    split
    · exact ⟨hchain, hpos, rfl⟩
    · cases hstep : paginationStep site p with
      | continueAt q =>
        have hq : p < q := paginationStep_continue_lt site p q hstep
        have hchain2 : (tr ++ [q]).Chain' (· < ·) := by
          rw [List.chain'_append]
          refine ⟨hchain, List.chain'_singleton q, ?_⟩
          intro x hx y hy
          rw [hlast] at hx
          rw [List.head?_cons] at hy
          cases hx
          cases hy
          omega
        have hpos2 : ∀ x ∈ tr ++ [q], 1 ≤ x := by
          intro x hx
          rcases List.mem_append.mp hx with hx | hx
          · exact hpos x hx
          · rw [List.mem_singleton] at hx
            omega
        obtain ⟨c1, c2, c3⟩ := ih q _ _ (tr ++ [q]) (by simp) hchain2 hpos2 (by omega)
        refine ⟨c1, c2, c3.trans ?_⟩
        rcases tr with _ | ⟨a, tr'⟩
        · simp at hlast
        · simp
      | stopAt q r =>
        dsimp only [RunOutcome.trace]
        by_cases hqp : q = p
        · rw [if_pos hqp]
          exact ⟨hchain, hpos, rfl⟩
        · have hq : p < q := by
            rcases paginationStep_stop_cases site p q r hstep with
              ⟨_, h⟩ | ⟨_, h⟩ | ⟨_, h⟩ | ⟨_, h⟩ <;> omega
          rw [if_neg hqp]
          refine ⟨?_, ?_, ?_⟩
          · rw [List.chain'_append]
            refine ⟨hchain, List.chain'_singleton q, ?_⟩
            intro x hx y hy
            rw [hlast] at hx
            rw [List.head?_cons] at hy
            cases hx
            cases hy
            omega
          · intro x hx
            rcases List.mem_append.mp hx with hx | hx
            · exact hpos x hx
            · rw [List.mem_singleton] at hx
              omega
          · rcases tr with _ | ⟨a, tr'⟩
            · simp at hlast
            · simp [RunOutcome.trace]
      | raisedAt q =>
        dsimp only [RunOutcome.trace]
        have hq : q = p := paginationStep_raised_eq site p q hstep
        rw [if_pos hq]
        exact ⟨hchain, hpos, rfl⟩

/-- Claim C9: over any run, the trace of values taken by
`current_page_number` starts at the discovered initial page (defaulting
to 1), is strictly increasing (a sequential advance assigns `p+1`, an
ellipsis reveal only adopts a strictly greater read), and — provided
the initially read page indicator is at least 1 when present — consists
solely of values ≥ 1; the page number is never decreased or reset. -/
theorem page_number_monotone (site : Site) (mp : Int) (fuel : Nat)
    (hinit : ∀ k, site.initRead = some k → 1 ≤ k) :
    (scrape_lunchcheck site mp fuel).trace.Chain' (· < ·) ∧
    (∀ x ∈ (scrape_lunchcheck site mp fuel).trace, 1 ≤ x) ∧
    (scrape_lunchcheck site mp fuel).trace.head? = some (site.initRead.getD 1) := by
  have hp : 1 ≤ site.initRead.getD 1 := by
    cases h : site.initRead with
    | none => simp
    | some k =>
      rw [Option.getD_some]
      exact hinit k h
  obtain ⟨c1, c2, c3⟩ := scrapeLoop_trace_invariant site mp fuel
    (site.initRead.getD 1) [] [] [site.initRead.getD 1] (by simp)
    (List.chain'_singleton _) (by simpa using hp) hp
  exact ⟨c1, c2, c3.trans rfl⟩

/-- Claim C9 witness: on the tableless fixture site (whose initial page
read fails, defaulting to 1) the trace is strictly increasing, all its
entries are at least 1, and it starts at page 1. -/
theorem page_number_monotone_witness :
    (scrape_lunchcheck tablelessSite (-1) 3).trace.Chain' (· < ·) ∧
    (∀ x ∈ (scrape_lunchcheck tablelessSite (-1) 3).trace, 1 ≤ x) ∧
    (scrape_lunchcheck tablelessSite (-1) 3).trace.head? =
      some (tablelessSite.initRead.getD 1) :=
  page_number_monotone tablelessSite (-1) 3 (fun _ h => nomatch h)

end LunchCheck
